import Mathlib

/-!
# Verification of the ATRX risk-control core

Shallow embedding of `src/modules/risk_manager.py` (class `RiskManager`) and
`src/modules/prop_firm_risk.py` (class `PropFirmRiskManager`) over exact
rational arithmetic, together with proofs and refutations of the spec claims.

Python floats are modelled as `ℚ`; Python `dict`s used as ledgers are
modelled as association lists (insertion-ordered, as in CPython) or, where the
code only ever reads with a `0.0` default, as total functions with default `0`.
`int(x)` is truncation toward zero, `round(x, 2)` is round-half-to-even at two
decimals, `math.floor` is `Int.floor`.
-/

namespace ATRX

/-- Python `int(q)` on a rational: truncation toward zero. -/
def pyInt (q : ℚ) : ℤ := if 0 ≤ q then ⌊q⌋ else ⌈q⌉

/-- Python `round` to an integer: round half to even (banker's rounding). -/
def pyRoundInt (q : ℚ) : ℤ :=
  if q - ⌊q⌋ = 1/2 then (if ⌊q⌋ % 2 = 0 then ⌊q⌋ else ⌊q⌋ + 1) else round q

/-- Python `round(q, 2)`: round half to even at two decimal places. -/
def pyRound2 (q : ℚ) : ℚ := (pyRoundInt (100 * q) : ℚ) / 100

/-! ## `risk_manager.py` : class `RiskManager` -/

/-- The persisted `self.state` dict of `RiskManager` (the fields the risk
logic reads and writes; the timestamp only drives day-rollover on load, which
is outside the claims below). -/
structure RiskState where
  currentCapital : ℚ
  peakCapital : ℚ
  dailyStartCapital : ℚ
  openRiskPct : ℚ
  openRiskByTicket : List (Nat × ℚ)
  deriving Repr, DecidableEq

/-- A `RiskManager` instance: configuration from `__init__` plus its state. -/
structure RiskManager where
  maxDailyDrawdown : ℚ
  maxTotalDrawdown : ℚ
  maxLeverage : ℚ
  state : RiskState
  deriving Repr, DecidableEq

/-- `RiskManager.get_drawdown_pct`. -/
def getDrawdownPct (rm : RiskManager) : ℚ :=
  let peak := rm.state.peakCapital
  if peak ≤ 0 then 0
  else max 0 ((peak - rm.state.currentCapital) / peak)

/-- `RiskManager.get_daily_drawdown_pct`. -/
def getDailyDrawdownPct (rm : RiskManager) : ℚ :=
  let start := rm.state.dailyStartCapital
  if start ≤ 0 then 0
  else max 0 ((start - rm.state.currentCapital) / start)

/-- `RiskManager.DD_RISK_TIERS`; `none` stands for `float("inf")`. -/
def DD_RISK_TIERS : List (Option ℚ × ℚ) :=
  [(some 1, 1), (some 2, 3/4), (some 3, 1/2), (none, 1/4)]

/-- The loop body of `get_risk_multiplier`: first tier whose threshold
exceeds the drawdown percentage wins; falling off the loop yields `0.25`. -/
def tierLookup : List (Option ℚ × ℚ) → ℚ → ℚ
  | [], _ => 1/4
  | (t, m) :: rest, d =>
    match t with
    | none => m
    | some th => if d < th then m else tierLookup rest d

/-- The risk-multiplier policy as a function of the drawdown percentage
(`get_risk_multiplier` after the `* 100` conversion). -/
def riskMultiplier (ddPct : ℚ) : ℚ := tierLookup DD_RISK_TIERS ddPct

/-- `RiskManager.get_risk_multiplier`. -/
def getRiskMultiplier (rm : RiskManager) : ℚ :=
  riskMultiplier (getDrawdownPct rm * 100)

/-- `RiskManager.check_circuit_breakers`. -/
def checkCircuitBreakers (rm : RiskManager) : Bool × String :=
  let dailyDd := getDailyDrawdownPct rm
  let totalDd := getDrawdownPct rm
  if rm.maxDailyDrawdown ≤ dailyDd then
    (false, "DAILY DD LIMIT")
  else if rm.maxTotalDrawdown ≤ totalDd then
    (false, "TOTAL DD LIMIT")
  else
    (true, "OK")

/-- The optional `symbol_info` argument of `calculate_position_size`
(the attributes the function reads, with their `getattr` defaults supplied). -/
structure SymbolInfo where
  ask : ℚ
  tradeContractSize : ℚ
  volumeMin : ℚ
  volumeMax : ℚ
  volumeStep : ℚ
  deriving Repr, DecidableEq

/-- `RiskManager.calculate_position_size`. -/
def calculatePositionSize (rm : RiskManager) (balance riskPct slDistance pointValue : ℚ)
    (symbolInfo : Option SymbolInfo) : ℚ :=
  if slDistance ≤ 0 ∨ pointValue ≤ 0 then 0
  else
    let multiplier := getRiskMultiplier rm
    let effectiveRisk := riskPct * multiplier
    let riskAmount := balance * effectiveRisk
    let rawLots := riskAmount / (slDistance * pointValue)
    let rawLots :=
      match symbolInfo with
      | none => rawLots
      | some si =>
        let maxLots := balance * rm.maxLeverage / (si.ask * si.tradeContractSize)
        let rawLots := min rawLots maxLots
        let rawLots := max si.volumeMin (min rawLots si.volumeMax)
        if 0 < si.volumeStep then (⌊rawLots / si.volumeStep⌋ : ℚ) * si.volumeStep
        else rawLots
    pyRound2 rawLots

/-- `dict.__setitem__` on an insertion-ordered association list. -/
def setKey (l : List (Nat × ℚ)) (k : Nat) (v : ℚ) : List (Nat × ℚ) :=
  match l with
  | [] => [(k, v)]
  | (k', v') :: rest => if k' = k then (k, v) :: rest else (k', v') :: setKey rest k v

/-- `dict.pop(k, None)` on an association list. -/
def popKey (l : List (Nat × ℚ)) (k : Nat) : List (Nat × ℚ) :=
  l.filter (fun p => p.1 ≠ k)

/-- `sum(d.values())`. -/
def sumValues (l : List (Nat × ℚ)) : ℚ := (l.map Prod.snd).sum

/-- `RiskManager.register_open_risk` (`save_state` is I/O only). -/
def registerOpenRisk (rm : RiskManager) (ticket : Nat) (riskPct : ℚ) : RiskManager :=
  let ledger := setKey rm.state.openRiskByTicket ticket riskPct
  { rm with state := { rm.state with openRiskByTicket := ledger, openRiskPct := sumValues ledger } }

/-- `RiskManager.release_risk`. -/
def releaseRisk (rm : RiskManager) (ticket : Nat) : RiskManager :=
  let ledger := popKey rm.state.openRiskByTicket ticket
  { rm with state := { rm.state with openRiskByTicket := ledger, openRiskPct := sumValues ledger } }

/-- A call to one of the two exposure-ledger mutators. -/
inductive LedgerOp where
  | register (ticket : Nat) (riskPct : ℚ)
  | release (ticket : Nat)
  deriving Repr, DecidableEq

/-- Apply one ledger call. -/
def applyOp (rm : RiskManager) : LedgerOp → RiskManager
  | .register t r => registerOpenRisk rm t r
  | .release t => releaseRisk rm t

/-- Apply a sequence of ledger calls, first to last. -/
def runOps (rm : RiskManager) (ops : List LedgerOp) : RiskManager :=
  ops.foldl applyOp rm

/-- A `RiskManager` with the constructor-default configuration
(`max_daily_dd = 0.038`, `max_total_dd = 0.08`, `max_leverage = 30`) and the
`_load_state` default state (all capital figures `0`, empty ledger). -/
def rmZero : RiskManager :=
  { maxDailyDrawdown := 38/1000
    maxTotalDrawdown := 8/100
    maxLeverage := 30
    state :=
      { currentCapital := 0
        peakCapital := 0
        dailyStartCapital := 0
        openRiskPct := 0
        openRiskByTicket := [] } }

/-- Closed form of the tier table traversal. -/
theorem riskMultiplier_eq (d : ℚ) :
    riskMultiplier d =
      if d < 1 then 1 else if d < 2 then 3/4 else if d < 3 then 1/2 else 1/4 := by
  simp only [riskMultiplier, DD_RISK_TIERS, tierLookup]

/-! ## Claims C1, C9, C10, C8 -/

/-- C1: after every `register_open_risk` / `release_risk` call — whatever the
starting state and whatever calls preceded it — the stored `open_risk_pct`
equals the sum of the values of `open_risk_by_ticket`. -/
theorem C1_ledger_sum_invariant (rm : RiskManager) (ops : List LedgerOp) (op : LedgerOp) :
    (applyOp (runOps rm ops) op).state.openRiskPct
      = sumValues (applyOp (runOps rm ops) op).state.openRiskByTicket := by
  cases op <;> rfl

/-- C9: the risk-multiplier policy is non-increasing in the drawdown
percentage, and always lies in `(0, 1]` on nonnegative drawdowns (it is a
total Lean function, hence total). -/
theorem C9_multiplier_monotone_bounded :
    (∀ d1 d2 : ℚ, 0 ≤ d1 → d1 < d2 → riskMultiplier d2 ≤ riskMultiplier d1) ∧
    (∀ d : ℚ, 0 ≤ d → 0 < riskMultiplier d ∧ riskMultiplier d ≤ 1) := by
  constructor
  · intro d1 d2 _ hlt
    rw [riskMultiplier_eq, riskMultiplier_eq]
    split_ifs <;> norm_num <;> linarith
  · intro d _
    rw [riskMultiplier_eq]
    split_ifs <;> norm_num

/-- Witness for C9 at `d1 = 1/2 < d2 = 3` and `d = 3`. -/
theorem C9_multiplier_monotone_bounded_witness :
    (riskMultiplier 3 ≤ riskMultiplier (1/2)) ∧
    (0 < riskMultiplier 3 ∧ riskMultiplier 3 ≤ 1) :=
  ⟨C9_multiplier_monotone_bounded.1 (1/2) 3 (by norm_num) (by norm_num),
   C9_multiplier_monotone_bounded.2 3 (by norm_num)⟩

/-- C10: `calculate_position_size` returns exactly `0` whenever the stop
distance or the point value is non-positive, for every balance, risk fraction
and instrument metadata (and, being a total function, never fails). -/
theorem C10_size_zero_on_bad_inputs (rm : RiskManager)
    (balance riskPct slDistance pointValue : ℚ) (si : Option SymbolInfo)
    (h : slDistance ≤ 0 ∨ pointValue ≤ 0) :
    calculatePositionSize rm balance riskPct slDistance pointValue si = 0 := by
  unfold calculatePositionSize
  rw [if_pos h]

/-- Witness for C10 at a concrete call with zero stop distance. -/
theorem C10_size_zero_on_bad_inputs_witness :
    calculatePositionSize rmZero 100000 (1/100) 0 10 none = 0 :=
  C10_size_zero_on_bad_inputs rmZero 100000 (1/100) 0 10 none (Or.inl le_rfl)

/-- The concrete state of C8's boundary scenario: daily start capital 100000,
current capital 96200, daily drawdown exactly 3.8 %. -/
def rm38 : RiskManager :=
  { maxDailyDrawdown := 38/1000
    maxTotalDrawdown := 8/100
    maxLeverage := 30
    state :=
      { currentCapital := 96200
        peakCapital := 100000
        dailyStartCapital := 100000
        openRiskPct := 0
        openRiskByTicket := [] } }

/-- C8: `check_circuit_breakers` reports `can_trade = false` exactly when the
daily drawdown reaches the daily ceiling or the total drawdown reaches the
total ceiling; in particular it trips at a daily drawdown of exactly 3.8 %
against the 3.8 % ceiling. -/
theorem C8_circuit_breaker_iff :
    (∀ rm : RiskManager,
      (checkCircuitBreakers rm).1 = false ↔
        rm.maxDailyDrawdown ≤ getDailyDrawdownPct rm ∨
        rm.maxTotalDrawdown ≤ getDrawdownPct rm) ∧
    (checkCircuitBreakers rm38).1 = false := by
  have key : ∀ rm : RiskManager,
      (checkCircuitBreakers rm).1 = false ↔
        rm.maxDailyDrawdown ≤ getDailyDrawdownPct rm ∨
        rm.maxTotalDrawdown ≤ getDrawdownPct rm := by
    intro rm
    simp only [checkCircuitBreakers]
    split_ifs <;> simp [*]
  refine ⟨key, (key rm38).mpr (Or.inl ?_)⟩
  norm_num [getDailyDrawdownPct, rm38, le_max_iff]

/-! ## Claim C2 -/

/-- `round(q, 2)` is the identity on exact multiples of `1/100`. -/
theorem pyRound2_cent (m : ℤ) : pyRound2 ((m : ℚ) / 100) = (m : ℚ) / 100 := by
  have h100 : (100 : ℚ) * ((m : ℚ) / 100) = (m : ℚ) := by ring
  unfold pyRound2 pyRoundInt
  rw [h100, Int.floor_intCast]
  rw [if_neg (by norm_num), round_intCast]

/-- Broker limits exhibiting the flaw in C2: the minimum lot `0.05` is not a
multiple of the lot step `0.02`. -/
def si0 : SymbolInfo :=
  { ask := 1, tradeContractSize := 100000
    volumeMin := 1/20, volumeMax := 100, volumeStep := 1/50 }

/-- Counterexample to C2 as stated: with min lot `0.05`, max lot `100`, lot
step `0.02` and a tiny requested risk, `calculate_position_size` clamps to the
minimum lot and then floors to the step grid, returning `0.04`, which is
strictly below `min_lot` — the result does not lie in `[min_lot, max_lot]`. -/
theorem C2_counterexample :
    calculatePositionSize rmZero 100000 0 10 10 (some si0) = 1/25 ∧
      calculatePositionSize rmZero 100000 0 10 10 (some si0) < si0.volumeMin := by
  norm_num [calculatePositionSize, getRiskMultiplier, getDrawdownPct, rmZero, si0,
    riskMultiplier_eq, pyRound2, pyRoundInt]

/-- C2 (amended): when additionally the lot step is positive and a multiple of
`0.01` (so that the final two-decimal rounding is exact), the minimum lot is an
exact multiple of the lot step, and `min_lot ≤ max_lot`, the returned size lies
in `[min_lot, max_lot]`, is an exact multiple of the lot step, and never
exceeds the clamped unrounded size. -/
theorem C2_size_within_limits (rm : RiskManager)
    (balance riskPct slDistance pointValue : ℚ) (si : SymbolInfo)
    (hsl : 0 < slDistance) (hpv : 0 < pointValue)
    (hstep : 0 < si.volumeStep)
    (k : ℤ) (hmin : si.volumeMin = (k : ℚ) * si.volumeStep)
    (m : ℤ) (hcent : si.volumeStep = (m : ℚ) / 100)
    (hmm : si.volumeMin ≤ si.volumeMax) :
    si.volumeMin ≤ calculatePositionSize rm balance riskPct slDistance pointValue (some si) ∧
    calculatePositionSize rm balance riskPct slDistance pointValue (some si) ≤ si.volumeMax ∧
    (∃ j : ℤ, calculatePositionSize rm balance riskPct slDistance pointValue (some si)
        = (j : ℚ) * si.volumeStep) ∧
    calculatePositionSize rm balance riskPct slDistance pointValue (some si)
      ≤ max si.volumeMin
          (min (min (balance * (riskPct * getRiskMultiplier rm) / (slDistance * pointValue))
                    (balance * rm.maxLeverage / (si.ask * si.tradeContractSize)))
               si.volumeMax) := by
  set step := si.volumeStep with hstepdef
  set c := max si.volumeMin
      (min (min (balance * (riskPct * getRiskMultiplier rm) / (slDistance * pointValue))
                (balance * rm.maxLeverage / (si.ask * si.tradeContractSize)))
           si.volumeMax) with hc
  have hstep0 : step ≠ 0 := ne_of_gt hstep
  have hsize : calculatePositionSize rm balance riskPct slDistance pointValue (some si)
      = (⌊c / step⌋ : ℚ) * step := by
    simp only [calculatePositionSize]
    rw [if_neg (by simp only [not_or, not_le]; exact ⟨hsl, hpv⟩), if_pos hstep]
    have hcast : (⌊c / step⌋ : ℚ) * step = ((⌊c / step⌋ * m : ℤ) : ℚ) / 100 := by
      rw [hcent]
      push_cast
      ring
    rw [← hc, ← hstepdef, hcast, pyRound2_cent, ← hcast]
  have hfloor_le : (⌊c / step⌋ : ℚ) * step ≤ c := by
    have h1 : (⌊c / step⌋ : ℚ) ≤ c / step := Int.floor_le _
    calc (⌊c / step⌋ : ℚ) * step ≤ (c / step) * step :=
          mul_le_mul_of_nonneg_right h1 hstep.le
      _ = c := div_mul_cancel₀ c hstep0
  have hmin_le : si.volumeMin ≤ (⌊c / step⌋ : ℚ) * step := by
    have hvc : si.volumeMin ≤ c := le_max_left _ _
    have hkq : (k : ℚ) ≤ c / step := by
      rw [le_div_iff₀ hstep, ← hmin]
      exact hvc
    have hkf : k ≤ ⌊c / step⌋ := Int.le_floor.mpr hkq
    rw [hmin]
    exact mul_le_mul_of_nonneg_right (by exact_mod_cast hkf) hstep.le
  have hcmax : c ≤ si.volumeMax := max_le hmm (min_le_right _ _)
  rw [hsize]
  exact ⟨hmin_le, le_trans hfloor_le hcmax, ⟨⌊c / step⌋, rfl⟩, hfloor_le⟩

/-- Well-behaved broker limits for the C2 witness: min lot `0.01`, max lot
`100`, lot step `0.01`. -/
def si1 : SymbolInfo :=
  { ask := 1, tradeContractSize := 100000
    volumeMin := 1/100, volumeMax := 100, volumeStep := 1/100 }

/-- Witness for C2 (amended) at a concrete sizing call. -/
theorem C2_size_within_limits_witness :
    si1.volumeMin ≤ calculatePositionSize rmZero 100000 (1/100) 10 10 (some si1) ∧
    calculatePositionSize rmZero 100000 (1/100) 10 10 (some si1) ≤ si1.volumeMax ∧
    (∃ j : ℤ, calculatePositionSize rmZero 100000 (1/100) 10 10 (some si1)
        = (j : ℚ) * si1.volumeStep) ∧
    calculatePositionSize rmZero 100000 (1/100) 10 10 (some si1)
      ≤ max si1.volumeMin
          (min (min (100000 * ((1/100) * getRiskMultiplier rmZero) / (10 * 10))
                    (100000 * rmZero.maxLeverage / (si1.ask * si1.tradeContractSize)))
               si1.volumeMax) :=
  C2_size_within_limits rmZero 100000 (1/100) 10 10 si1 (by norm_num) (by norm_num)
    (by norm_num [si1]) 1 (by norm_num [si1]) 1 (by norm_num [si1]) (by norm_num [si1])

/-! ## `prop_firm_risk.py` : class `PropFirmRiskManager` -/

/-- `DrawdownType`. -/
inductive DrawdownType where
  | static
  | trailing
  deriving Repr, DecidableEq

/-- `TradingPhase`. -/
inductive TradingPhase where
  | challenge
  | verification
  | funded
  | scaled
  deriving Repr, DecidableEq

/-- `RiskAction`. -/
inductive RiskAction where
  | allow
  | reduceSize
  | blockNew
  | haltTrading
  deriving Repr, DecidableEq

/-- `PhaseConfig`. -/
structure PhaseConfig where
  phase : TradingPhase
  ddType : DrawdownType
  maxDailyDdPct : ℚ
  maxTotalDdPct : ℚ
  minRiskPerTrade : ℚ
  maxRiskPerTrade : ℚ
  profitTargetPct : ℚ
  deriving Repr, DecidableEq

/-- The `PHASE_CONFIGS` entry for the challenge phase. -/
def challengeConfig : PhaseConfig :=
  { phase := .challenge, ddType := .static
    maxDailyDdPct := 38/1000, maxTotalDdPct := 8/100
    minRiskPerTrade := 5/1000, maxRiskPerTrade := 125/10000
    profitTargetPct := 8/100 }

/-- The `PHASE_CONFIGS` entry for the verification phase. -/
def verificationConfig : PhaseConfig :=
  { phase := .verification, ddType := .static
    maxDailyDdPct := 38/1000, maxTotalDdPct := 8/100
    minRiskPerTrade := 25/10000, maxRiskPerTrade := 75/10000
    profitTargetPct := 5/100 }

/-- The `PHASE_CONFIGS` entry for the funded phase. -/
def fundedConfig : PhaseConfig :=
  { phase := .funded, ddType := .trailing
    maxDailyDdPct := 38/1000, maxTotalDdPct := 8/100
    minRiskPerTrade := 25/10000, maxRiskPerTrade := 1/100
    profitTargetPct := 0 }

/-- `PHASE_CONFIGS` as a dict lookup: the module defines entries for
challenge, verification and funded only; `scaled` has no entry, so indexing
with it raises `KeyError` (modelled as `none`). -/
def PHASE_CONFIGS : TradingPhase → Option PhaseConfig
  | .challenge => some challengeConfig
  | .verification => some verificationConfig
  | .funded => some fundedConfig
  | .scaled => none

/-- `OpenPosition`. -/
structure OpenPosition where
  ticket : Nat
  symbol : String
  action : String
  volume : ℚ
  riskPct : ℚ
  entryPrice : ℚ
  stopLoss : ℚ
  openedAt : String := ""
  deriving Repr, DecidableEq

/-- The mutable attributes of a `PropFirmRiskManager` instance
(`open_positions` is kept as its list of values, in insertion order). -/
structure PFState where
  phase : TradingPhase
  config : PhaseConfig
  initialBalance : ℚ
  highWaterMark : ℚ
  openPositions : List OpenPosition
  dailyPnl : ℚ
  deriving Repr, DecidableEq

/-- `PropFirmRiskManager.__init__`: the dict lookup `PHASE_CONFIGS[phase]`
raises for a phase with no entry (`none`); the initial balance is stored
without validation. -/
def mkPropFirmRiskManager (phase : TradingPhase) (initialBalance : ℚ) : Option PFState :=
  (PHASE_CONFIGS phase).map fun config =>
    { phase := phase, config := config
      initialBalance := initialBalance, highWaterMark := initialBalance
      openPositions := [], dailyPnl := 0 }

/-- `PropFirmRiskManager._get_drawdown_pct`: returns the updated instance
(the trailing branch writes `self.high_water_mark`) and the drawdown. -/
def ddStep (s : PFState) (currentEquity : ℚ) : PFState × ℚ :=
  match s.config.ddType with
  | .trailing =>
    let s' := if s.highWaterMark < currentEquity
              then { s with highWaterMark := currentEquity } else s
    let base := s'.highWaterMark
    (s', if base ≤ 0 then 0 else max 0 ((base - currentEquity) / base))
  | .static =>
    let base := s.initialBalance
    (s, if base ≤ 0 then 0 else max 0 ((base - currentEquity) / base))

/-- The dict returned by `get_risk_budget`. -/
structure RiskBudget where
  availableRiskPct : ℚ
  usedRiskPct : ℚ
  ddMultiplier : ℚ
  maxNewPositions : ℤ
  deriving Repr, DecidableEq

/-- `PropFirmRiskManager.get_risk_budget`. -/
def getRiskBudget (s : PFState) (currentEquity : ℚ) : PFState × RiskBudget :=
  let usedRisk := (s.openPositions.map OpenPosition.riskPct).sum
  let sd := ddStep s currentEquity
  let ddPct := sd.2
  let ddMultiplier := if 2/100 < ddPct then 1/2 else if 1/100 < ddPct then 3/4 else 1
  let maxTotalRisk := sd.1.config.maxTotalDdPct * (1/2) * ddMultiplier
  let available := max 0 (maxTotalRisk - usedRisk)
  (sd.1,
   { availableRiskPct := available
     usedRiskPct := usedRisk
     ddMultiplier := ddMultiplier
     maxNewPositions :=
       if 0 < available then pyInt (available / sd.1.config.minRiskPerTrade) else 0 })

/-- `PropFirmRiskManager.assess_risk`: returns the updated instance and the
graded action. -/
def assessRisk (s : PFState) (currentEquity : ℚ) : PFState × RiskAction :=
  let sd := ddStep s currentEquity
  let dd := sd.2
  let limit := sd.1.config.maxTotalDdPct
  let a : RiskAction :=
    if limit * (95/100) ≤ dd then .haltTrading
    else if limit * (75/100) ≤ dd then .blockNew
    else if limit * (50/100) ≤ dd then .reduceSize
    else .allow
  (sd.1, a)

/-- `SYMBOL_CURRENCY_EXPOSURE`. -/
def SYMBOL_CURRENCY_EXPOSURE : List (String × List (String × ℚ)) :=
  [("EURUSD", [("EUR", 1), ("USD", -1)]),
   ("GBPUSD", [("GBP", 1), ("USD", -1)]),
   ("AUDUSD", [("AUD", 1), ("USD", -1)]),
   ("NZDUSD", [("NZD", 1), ("USD", -1)]),
   ("USDCAD", [("USD", 1), ("CAD", -1)]),
   ("USDCHF", [("USD", 1), ("CHF", -1)]),
   ("USDJPY", [("USD", 1), ("JPY", -1)]),
   ("EURGBP", [("EUR", 1), ("GBP", -1)]),
   ("EURJPY", [("EUR", 1), ("JPY", -1)]),
   ("GBPJPY", [("GBP", 1), ("JPY", -1)]),
   ("AUDJPY", [("AUD", 1), ("JPY", -1)]),
   ("NZDJPY", [("NZD", 1), ("JPY", -1)]),
   ("XAUUSD", [("XAU", 1), ("USD", -1)]),
   ("BTCUSD", [("BTC", 1), ("USD", -1)]),
   ("ETHUSD", [("ETH", 1), ("USD", -1)])]

/-- `SYMBOL_CURRENCY_EXPOSURE.get(sym, {})`. -/
def symExp (sym : String) : List (String × ℚ) :=
  (List.lookup sym SYMBOL_CURRENCY_EXPOSURE).getD []

/-- `1.0 if action == "BUY" else -1.0`. -/
def dirOf (action : String) : ℚ := if action = "BUY" then 1 else -1

/-- `total_exposure[ccy] = total_exposure.get(ccy, 0.0) + v`, with the dict
modelled as a total function with default `0`. -/
def updExposure (d : String → ℚ) (ccy : String) (v : ℚ) : String → ℚ :=
  fun c => if c = ccy then d ccy + v else d c

/-- The exposure-aggregation loop of `check_correlation`: fold the signed
per-currency weights of every open position in a different symbol into a
running per-currency total. -/
def totalExposure (positions : List OpenPosition) (newSymbol : String) : String → ℚ :=
  positions.foldl
    (fun d p =>
      if p.symbol = newSymbol then d
      else (symExp p.symbol).foldl
        (fun d2 cw => updExposure d2 cw.1 (cw.2 * dirOf p.action)) d)
    (fun _ => 0)

/-- `PropFirmRiskManager.check_correlation` (read-only: the method writes no
attribute). -/
def checkCorrelation (s : PFState) (newSymbol newAction : String) : Bool × String :=
  let newExposure := symExp newSymbol
  if newExposure = [] then (true, "Unknown symbol - no correlation data")
  else
    let total := totalExposure s.openPositions newSymbol
    let newDirection := dirOf newAction
    match newExposure.find?
        (fun cw => decide (2 < |total cw.1 + cw.2 * newDirection|)) with
    | some _ => (false, "Excessive exposure")
    | none => (true, "OK")

/-- The aggregate signed exposure to one currency of the open positions in
symbols other than the proposed one (the claim's direct-sum reading of the
aggregation loop). -/
def aggExposure (positions : List OpenPosition) (newSymbol ccy : String) : ℚ :=
  ((positions.filter (fun p => p.symbol ≠ newSymbol)).map
    (fun p => ((List.lookup ccy (symExp p.symbol)).getD 0) * dirOf p.action)).sum

/-- A freshly constructed challenge-phase manager with initial balance
100000 (the constructor defaults). -/
def challengeState : PFState :=
  { phase := .challenge, config := challengeConfig
    initialBalance := 100000, highWaterMark := 100000
    openPositions := [], dailyPnl := 0 }

/-- A freshly constructed funded-phase (trailing-drawdown) manager with
initial balance 100000. -/
def fundedState : PFState :=
  { phase := .funded, config := fundedConfig
    initialBalance := 100000, highWaterMark := 100000
    openPositions := [], dailyPnl := 0 }

/-! ## Claim C3 -/

/-- Counterexample to C3 as stated: constructing with the documented phase
`scaled` and a positive balance fails (`PHASE_CONFIGS` has no entry for it,
so the constructor's dict lookup raises `KeyError`), while constructing with
a negative initial balance succeeds (the balance is never validated). -/
theorem C3_counterexample :
    mkPropFirmRiskManager TradingPhase.scaled 100000 = none ∧
      (mkPropFirmRiskManager TradingPhase.challenge (-1)).isSome = true := by
  constructor <;> rfl

/-- C3 (amended): construction fails exactly when the phase has no
`PHASE_CONFIGS` entry — that is, for `scaled` — and succeeds for challenge,
verification and funded with any initial balance; the balance, including
non-positive values, is never validated. -/
theorem C3_construction_iff (phase : TradingPhase) (initialBalance : ℚ) :
    (mkPropFirmRiskManager phase initialBalance).isSome = true ↔
      phase ≠ TradingPhase.scaled := by
  cases phase <;> simp [mkPropFirmRiskManager, PHASE_CONFIGS]

/-! ## Claim C4 -/

/-- The only state change a budget/assessment query can make: in trailing
mode, when equity exceeds the stored high-water mark, the mark is raised. -/
def hwmAfter (s : PFState) (e : ℚ) : PFState :=
  if s.config.ddType = DrawdownType.trailing ∧ s.highWaterMark < e
  then { s with highWaterMark := e } else s

/-- Counterexample to C4 as stated: on a funded-phase (trailing) manager,
`assess_risk` at an equity above the high-water mark mutates the stored
high-water mark, so it is not read-only. -/
theorem C4_counterexample :
    (assessRisk fundedState 101000).1.highWaterMark = 101000 ∧
      fundedState.highWaterMark = 100000 := by
  constructor <;> rfl

/-- C4 (amended): `check_correlation` is read-only (it is a pure function of
the state in this embedding, mirroring a method that writes no attribute);
`get_risk_budget` and `assess_risk` leave the phase, config, balances, open
positions and daily P&L unchanged, and either leave the whole state unchanged
or — exactly when the drawdown mode is trailing and equity exceeds the stored
high-water mark — raise the high-water mark to the given equity. -/
theorem C4_query_frame (s : PFState) (e : ℚ) :
    (getRiskBudget s e).1 = hwmAfter s e ∧
    (assessRisk s e).1 = hwmAfter s e ∧
    (hwmAfter s e = s ∨
      (s.config.ddType = DrawdownType.trailing ∧ s.highWaterMark < e ∧
        hwmAfter s e = { s with highWaterMark := e })) := by
  have hdd : (ddStep s e).1 = hwmAfter s e := by
    unfold ddStep hwmAfter
    cases hdt : s.config.ddType <;> simp [hdt]
  refine ⟨hdd, hdd, ?_⟩
  unfold hwmAfter
  split_ifs with h
  · exact Or.inr ⟨h.1, h.2, rfl⟩
  · exact Or.inl rfl

/-! ## Claim C5 -/

/-- Counterexample to C5 as stated: at a drawdown of exactly 1 % (equity
99000 on a static 100000 baseline) the drawdown is not below 1 %, so the
claim's tiering ("full budget below 1 % drawdown, 75 % below 2 %") mandates a
multiplier of 3/4; the code's strict comparison `dd_pct > 0.01` keeps the
full budget and returns 1. -/
theorem C5_counterexample :
    (ddStep challengeState 99000).2 = 1/100 ∧
    ¬ (ddStep challengeState 99000).2 < 1/100 ∧
    (getRiskBudget challengeState 99000).2.ddMultiplier = 1 := by
  refine ⟨?_, ?_, ?_⟩ <;>
    norm_num [ddStep, getRiskBudget, challengeState, challengeConfig]

/-- C5 (amended): `get_risk_budget` returns `used_risk` equal to the sum of
open-position risk fractions, a `dd_multiplier` that is the full budget at or
below 1 % drawdown, 75 % above 1 % and at or below 2 %, and 50 % above 2 %,
`available_risk = max 0 (total-drawdown ceiling × 1/2 × dd_multiplier −
used_risk)`, and `max_new_positions = ⌊available_risk / min risk per trade⌋`
when `available_risk > 0`, else `0` (for the configured phases the minimum
risk per trade is positive, so truncation coincides with floor). -/
theorem C5_budget_formulas (s : PFState) (e : ℚ)
    (hmr : 0 < s.config.minRiskPerTrade) :
    (getRiskBudget s e).2.usedRiskPct = (s.openPositions.map OpenPosition.riskPct).sum ∧
    (getRiskBudget s e).2.ddMultiplier =
      (if (ddStep s e).2 ≤ 1/100 then 1
       else if (ddStep s e).2 ≤ 2/100 then 3/4 else 1/2) ∧
    (getRiskBudget s e).2.availableRiskPct =
      max 0 (s.config.maxTotalDdPct * (1/2) * (getRiskBudget s e).2.ddMultiplier
        - (getRiskBudget s e).2.usedRiskPct) ∧
    (getRiskBudget s e).2.maxNewPositions =
      (if 0 < (getRiskBudget s e).2.availableRiskPct
       then ⌊(getRiskBudget s e).2.availableRiskPct / s.config.minRiskPerTrade⌋
       else 0) := by
  have hcfg : (ddStep s e).1.config = s.config := by
    unfold ddStep
    cases hdt : s.config.ddType
    · simp [hdt]
    · simp [hdt]
      split_ifs <;> rfl
  have hmult : (getRiskBudget s e).2.ddMultiplier =
      (if (ddStep s e).2 ≤ 1/100 then 1
       else if (ddStep s e).2 ≤ 2/100 then 3/4 else 1/2) := by
    show (if 2/100 < (ddStep s e).2 then (1:ℚ)/2
          else if 1/100 < (ddStep s e).2 then 3/4 else 1) = _
    rcases lt_trichotomy ((ddStep s e).2) (1/100) with h | h | h <;>
      rcases lt_trichotomy ((ddStep s e).2) (2/100) with h2 | h2 | h2 <;>
      split_ifs <;> first | rfl | linarith
  refine ⟨rfl, hmult, ?_, ?_⟩
  · show max 0 ((ddStep s e).1.config.maxTotalDdPct * (1/2) *
        (getRiskBudget s e).2.ddMultiplier - (getRiskBudget s e).2.usedRiskPct) = _
    rw [hcfg]
  · show (if 0 < (getRiskBudget s e).2.availableRiskPct
        then pyInt ((getRiskBudget s e).2.availableRiskPct
          / (ddStep s e).1.config.minRiskPerTrade) else 0) = _
    rw [hcfg]
    split_ifs with h
    · unfold pyInt
      rw [if_pos (le_of_lt (div_pos h hmr))]
    · rfl

/-- Witness for C5 (amended) on a fresh challenge-phase manager at its
initial equity. -/
theorem C5_budget_formulas_witness :
    (getRiskBudget challengeState 100000).2.usedRiskPct
        = ((challengeState.openPositions.map OpenPosition.riskPct).sum) ∧
    (getRiskBudget challengeState 100000).2.ddMultiplier =
      (if (ddStep challengeState 100000).2 ≤ 1/100 then 1
       else if (ddStep challengeState 100000).2 ≤ 2/100 then 3/4 else 1/2) ∧
    (getRiskBudget challengeState 100000).2.availableRiskPct =
      max 0 (challengeState.config.maxTotalDdPct * (1/2)
        * (getRiskBudget challengeState 100000).2.ddMultiplier
        - (getRiskBudget challengeState 100000).2.usedRiskPct) ∧
    (getRiskBudget challengeState 100000).2.maxNewPositions =
      (if 0 < (getRiskBudget challengeState 100000).2.availableRiskPct
       then ⌊(getRiskBudget challengeState 100000).2.availableRiskPct
          / challengeState.config.minRiskPerTrade⌋
       else 0) :=
  C5_budget_formulas challengeState 100000
    (by norm_num [challengeState, challengeConfig])

/-! ## Claim C6 -/

/-- C6: on any manager whose phase ceiling is nonnegative (true of every
configured phase), `assess_risk` returns `ALLOW` exactly below 50 % of the
total-drawdown ceiling, `REDUCE_SIZE` exactly on `[50 %, 75 %)`, `BLOCK_NEW`
exactly on `[75 %, 95 %)` and `HALT_TRADING` exactly at and above 95 % —
boundaries included as stated. -/
theorem C6_assess_risk_boundaries (s : PFState) (e : ℚ)
    (hc : 0 ≤ s.config.maxTotalDdPct) :
    ((assessRisk s e).2 = RiskAction.allow ↔
        (ddStep s e).2 < s.config.maxTotalDdPct * (50/100)) ∧
    ((assessRisk s e).2 = RiskAction.reduceSize ↔
        s.config.maxTotalDdPct * (50/100) ≤ (ddStep s e).2 ∧
        (ddStep s e).2 < s.config.maxTotalDdPct * (75/100)) ∧
    ((assessRisk s e).2 = RiskAction.blockNew ↔
        s.config.maxTotalDdPct * (75/100) ≤ (ddStep s e).2 ∧
        (ddStep s e).2 < s.config.maxTotalDdPct * (95/100)) ∧
    ((assessRisk s e).2 = RiskAction.haltTrading ↔
        s.config.maxTotalDdPct * (95/100) ≤ (ddStep s e).2) := by
  have hcfg : (ddStep s e).1.config = s.config := by
    unfold ddStep
    cases hdt : s.config.ddType
    · simp [hdt]
    · simp [hdt]
      split_ifs <;> rfl
  have hshow : (assessRisk s e).2 =
      (if s.config.maxTotalDdPct * (95/100) ≤ (ddStep s e).2 then RiskAction.haltTrading
       else if s.config.maxTotalDdPct * (75/100) ≤ (ddStep s e).2 then RiskAction.blockNew
       else if s.config.maxTotalDdPct * (50/100) ≤ (ddStep s e).2 then RiskAction.reduceSize
       else RiskAction.allow) := by
    show (if (ddStep s e).1.config.maxTotalDdPct * (95/100) ≤ (ddStep s e).2 then _
          else if (ddStep s e).1.config.maxTotalDdPct * (75/100) ≤ (ddStep s e).2 then _
          else if (ddStep s e).1.config.maxTotalDdPct * (50/100) ≤ (ddStep s e).2 then _
          else _) = _
    rw [hcfg]
  rw [hshow]
  split_ifs with h1 h2 h3 <;>
    refine ⟨?_, ?_, ?_, ?_⟩ <;> simp <;>
    push_neg at * <;>
    first
      | linarith
      | (intro h; linarith)
      | (constructor <;> linarith)

/-- Witness for C6 on a fresh challenge-phase manager at an equity of 93000
(drawdown 7 %, at and above 75 % but below 95 % of the 8 % ceiling). -/
theorem C6_assess_risk_boundaries_witness :
    ((assessRisk challengeState 93000).2 = RiskAction.allow ↔
        (ddStep challengeState 93000).2 < challengeState.config.maxTotalDdPct * (50/100)) ∧
    ((assessRisk challengeState 93000).2 = RiskAction.reduceSize ↔
        challengeState.config.maxTotalDdPct * (50/100) ≤ (ddStep challengeState 93000).2 ∧
        (ddStep challengeState 93000).2 < challengeState.config.maxTotalDdPct * (75/100)) ∧
    ((assessRisk challengeState 93000).2 = RiskAction.blockNew ↔
        challengeState.config.maxTotalDdPct * (75/100) ≤ (ddStep challengeState 93000).2 ∧
        (ddStep challengeState 93000).2 < challengeState.config.maxTotalDdPct * (95/100)) ∧
    ((assessRisk challengeState 93000).2 = RiskAction.haltTrading ↔
        challengeState.config.maxTotalDdPct * (95/100) ≤ (ddStep challengeState 93000).2) :=
  C6_assess_risk_boundaries challengeState 93000
    (by norm_num [challengeState, challengeConfig])

/-! ## Claim C7 -/

/-- A successful association-list lookup returns one of the stored values. -/
theorem lookup_mem_values {α β : Type} [BEq α] (a : α) (l : List (α × β)) (b : β)
    (h : List.lookup a l = some b) : b ∈ l.map Prod.snd := by
  induction l with
  | nil => simp [List.lookup] at h
  | cons hd tl ih =>
    obtain ⟨k, v⟩ := hd
    simp only [List.lookup] at h
    cases hbe : a == k <;> rw [hbe] at h
    · exact List.mem_cons_of_mem _ (ih h)
    · cases h
      exact List.mem_cons_self _ _

/-- Every exposure list in the table has pairwise-distinct currency keys. -/
theorem symExp_keys_nodup (sym : String) : ((symExp sym).map Prod.fst).Nodup := by
  unfold symExp
  cases h : List.lookup sym SYMBOL_CURRENCY_EXPOSURE with
  | none => simp
  | some l =>
    have hm : l ∈ SYMBOL_CURRENCY_EXPOSURE.map Prod.snd := lookup_mem_values _ _ _ h
    have hall : ∀ v ∈ SYMBOL_CURRENCY_EXPOSURE.map Prod.snd,
        ((v : List (String × ℚ)).map Prod.fst).Nodup := by
      intro v hv
      fin_cases hv <;> simp
    simpa using hall l hm

/-- The exposure lookup is empty exactly for symbols absent from the table
(the table stores no empty exposure lists). -/
theorem symExp_eq_nil_iff (sym : String) :
    symExp sym = [] ↔ List.lookup sym SYMBOL_CURRENCY_EXPOSURE = none := by
  unfold symExp
  cases h : List.lookup sym SYMBOL_CURRENCY_EXPOSURE with
  | none => simp
  | some l =>
    simp only [Option.getD_some]
    constructor
    · intro hl
      subst hl
      have hm : ([] : List (String × ℚ)) ∈ SYMBOL_CURRENCY_EXPOSURE.map Prod.snd :=
        lookup_mem_values _ _ _ h
      simp [SYMBOL_CURRENCY_EXPOSURE] at hm
    · intro hc
      cases hc

/-- Folding weight updates for keys other than `c` leaves `c`'s total alone. -/
theorem foldl_upd_of_not_mem (l : List (String × ℚ)) (q : ℚ) (c : String)
    (hc : c ∉ l.map Prod.fst) (d : String → ℚ) :
    (l.foldl (fun d2 cw => updExposure d2 cw.1 (cw.2 * q)) d) c = d c := by
  induction l generalizing d with
  | nil => rfl
  | cons hd tl ih =>
    simp only [List.map_cons, List.mem_cons, not_or] at hc
    rw [List.foldl_cons, ih hc.2]
    simp [updExposure, hc.1]

/-- Folding one position's exposure list into the running totals adds exactly
its looked-up signed weight to each currency's total. -/
theorem foldl_upd_lookup (l : List (String × ℚ)) (hl : (l.map Prod.fst).Nodup) (q : ℚ)
    (c : String) (d : String → ℚ) :
    (l.foldl (fun d2 cw => updExposure d2 cw.1 (cw.2 * q)) d) c
      = d c + ((List.lookup c l).getD 0) * q := by
  induction l generalizing d with
  | nil => simp [List.lookup]
  | cons hd tl ih =>
    obtain ⟨k, w⟩ := hd
    simp only [List.map_cons, List.nodup_cons] at hl
    rw [List.foldl_cons]
    by_cases hc : c = k
    · subst hc
      rw [foldl_upd_of_not_mem tl q c hl.1]
      simp [updExposure, List.lookup]
    · rw [ih hl.2]
      have hbe : (c == k) = false := by simp [hc]
      simp [updExposure, List.lookup, hc, hbe]

/-- The aggregation loop of `check_correlation` computes, for every currency,
the direct sum of signed exposures of the open positions in other symbols. -/
theorem totalExposure_eq (ps : List OpenPosition) (newSym c : String) :
    totalExposure ps newSym c = aggExposure ps newSym c := by
  suffices h : ∀ d : String → ℚ,
      (ps.foldl
        (fun d p => if p.symbol = newSym then d
          else (symExp p.symbol).foldl
            (fun d2 cw => updExposure d2 cw.1 (cw.2 * dirOf p.action)) d) d) c
      = d c + aggExposure ps newSym c by
    simpa [totalExposure] using h (fun _ => 0)
  induction ps with
  | nil =>
    intro d
    simp [aggExposure]
  | cons p tl ih =>
    intro d
    rw [List.foldl_cons]
    by_cases hp : p.symbol = newSym
    · rw [if_pos hp, ih]
      simp [aggExposure, List.filter_cons, hp]
    · rw [if_neg hp, ih, foldl_upd_lookup _ (symExp_keys_nodup p.symbol)]
      simp [aggExposure, List.filter_cons, hp]
      ring

/-- C7: `check_correlation` approves exactly when the proposed symbol is
absent from the exposure table, or for every currency it touches the
aggregate signed exposure of other-symbol open positions plus the proposal's
own signed contribution stays within 2.0 in absolute value (same-symbol
positions are excluded from the aggregate by construction of
`aggExposure`). -/
theorem C7_correlation_approve_iff (s : PFState) (newSymbol newAction : String) :
    (checkCorrelation s newSymbol newAction).1 = true ↔
      (List.lookup newSymbol SYMBOL_CURRENCY_EXPOSURE = none ∨
        ∀ cw ∈ symExp newSymbol,
          |aggExposure s.openPositions newSymbol cw.1 + cw.2 * dirOf newAction| ≤ 2) := by
  simp only [checkCorrelation]
  by_cases hnil : symExp newSymbol = []
  · rw [if_pos hnil]
    simp [(symExp_eq_nil_iff newSymbol).mp hnil]
  · rw [if_neg hnil]
    have hlk : ¬ List.lookup newSymbol SYMBOL_CURRENCY_EXPOSURE = none := by
      intro h
      exact hnil ((symExp_eq_nil_iff newSymbol).mpr h)
    cases hf : (symExp newSymbol).find?
        (fun cw => decide
          (2 < |totalExposure s.openPositions newSymbol cw.1 + cw.2 * dirOf newAction|)) with
    | none =>
      constructor
      · intro _
        right
        intro cw hcw
        have hp := List.find?_eq_none.mp hf cw hcw
        simp only [decide_eq_true_eq, not_lt] at hp
        rwa [totalExposure_eq] at hp
      · intro _
        rfl
    | some cw =>
      constructor
      · intro h
        exact absurd h Bool.false_ne_true
      · intro h
        exfalso
        rcases h with h | hall
        · exact hlk h
        · have hmem := List.mem_of_find?_eq_some hf
          have hpred := List.find?_some hf
          simp only [decide_eq_true_eq] at hpred
          rw [totalExposure_eq] at hpred
          exact absurd (hall cw hmem) (not_le.mpr hpred)

end ATRX
